import Mathlib

/-!
Shallow embedding of `supabase/functions/approve-posting/index.ts` from the
talent-scout-ai repository, together with theorems settling the claims about
the approval pipeline (persist → embedding text → collection check →
embedding acquisition → vector upload → similarity query → enrichment →
response).

External HTTP services (Supabase insert, Qdrant, OpenAI, Cohere, the
promotion model) are modelled by their observable outcomes, passed in as
explicit parameters; the functions of the source file are translated
line for line over those outcomes.  Numbers are modelled as ℚ.
-/

namespace ApprovePosting

/-- JavaScript `a || b` for an optional string: `undefined` and the empty
string are falsy (source uses this idiom at lines 385-398). -/
def jsOrStr (o : Option String) (d : String) : String :=
  match o with
  | some s => if s = "" then d else s
  | none => d

/-- JavaScript `a || b` for an optional number: `undefined` and `0` are
falsy; for numeric defaults of `0` this collapses to `getD 0`. -/
def jsOrNum (o : Option ℚ) (d : ℚ) : ℚ :=
  match o with
  | some q => if q = 0 then d else q
  | none => d

/-- One left-to-right pass of JavaScript's global string replace over a
character list: at each position, a match of `pattern` emits `repl` and
scanning resumes after the matched text (the emitted replacement is not
rescanned).  `fuel` only bounds the recursion; with `fuel = s.length` and
a non-empty pattern it is never exhausted. -/
def replaceAux (pattern repl : List Char) : Nat → List Char → List Char
  | _, [] => []
  | 0, s => s
  | fuel + 1, c :: rest =>
    if pattern.isPrefixOf (c :: rest) then
      repl ++ replaceAux pattern repl fuel ((c :: rest).drop pattern.length)
    else
      c :: replaceAux pattern repl fuel rest

/-- JavaScript `s.replace(/pattern/g, repl)` for a literal pattern. -/
def jsReplaceAll (s pattern repl : String) : String :=
  ⟨replaceAux pattern.data repl.data s.data.length s.data⟩

/-- JavaScript `s.split(sep)` on a single-character separator, as a
character-list recursion; the empty string splits to `[""]`. -/
def splitOnChar (sep : Char) : List Char → List (List Char)
  | [] => [[]]
  | x :: xs =>
    let r := splitOnChar sep xs
    if x = sep then [] :: r
    else
      match r with
      | [] => [[x]]
      | y :: ys => (x :: y) :: ys

def jsSplit (s : String) (sep : Char) : List String :=
  (splitOnChar sep s.data).map (fun l => ⟨l⟩)

/-- JavaScript `s.trim()`: strip whitespace from both ends. -/
def jsTrim (s : String) : String :=
  ⟨((s.data.dropWhile Char.isWhitespace).reverse.dropWhile Char.isWhitespace).reverse⟩

/-- The `skills` field of the structured data may be a JSON string, a JSON
array, or absent (`createEmbeddingText` lines 204-208 branches on
`typeof`/`Array.isArray`). -/
inductive SkillsField
  | str (s : String)
  | list (l : List String)
  | missing
deriving DecidableEq, Repr

/-- The parsed `structuredData` object, with the fields the pipeline reads.
`job_categories` is optional because the handler guards it with `|| ''`
(line 78) and the template interpolation would print `undefined` when it is
absent (line 218). -/
structure StructuredData where
  title : String
  company : String
  job_type : String
  work_setting : String
  location : String
  experience_needed : String
  career_level : String
  education_level : String
  job_categories : Option String
  skills : SkillsField
deriving DecidableEq, Repr

/-- JavaScript template interpolation of the optional `job_categories`
field: an absent field prints as the literal text `undefined`. -/
def interpOpt (o : Option String) : String :=
  match o with
  | some s => s
  | none => "undefined"

/-- `createEmbeddingText` (lines 203-227): normalises `skills` to one
string, then renders the labelled template literal and trims it. -/
def createEmbeddingText (structuredData : StructuredData) (naturalPosting : String) : String :=
  let skills :=
    match structuredData.skills with
    | .str s => s
    | .list l => String.intercalate ", " l
    | .missing => ""
  (jsTrim
    ("\nJob Title: " ++ structuredData.title ++
     "\nJob Type: " ++ structuredData.job_type ++
     "\nWork Setting: " ++ structuredData.work_setting ++
     "\nLocation: " ++ structuredData.location ++
     "\nExperience Level: " ++ structuredData.experience_needed ++
     "\nCareer Level: " ++ structuredData.career_level ++
     "\nEducation Required: " ++ structuredData.education_level ++
     "\nDepartment/Categories: " ++ interpOpt structuredData.job_categories ++
     "\nRequired Skills: " ++ skills ++
     "\n\nJob Description:\n" ++ naturalPosting ++
     "\n\nJob Requirements:\n" ++ naturalPosting ++
     "\n  "))

/-- The template text up to and including the `Required Skills:` label,
used to state the structure of `createEmbeddingText`'s output. -/
def embeddingHeader (structuredData : StructuredData) : String :=
  "\nJob Title: " ++ structuredData.title ++
  "\nJob Type: " ++ structuredData.job_type ++
  "\nWork Setting: " ++ structuredData.work_setting ++
  "\nLocation: " ++ structuredData.location ++
  "\nExperience Level: " ++ structuredData.experience_needed ++
  "\nCareer Level: " ++ structuredData.career_level ++
  "\nEducation Required: " ++ structuredData.education_level ++
  "\nDepartment/Categories: " ++ interpOpt structuredData.job_categories ++
  "\nRequired Skills: "

/-- The skills normalisation performed inside `createEmbeddingText`
(lines 204-208), as a standalone function for stating theorems. -/
def normalizedSkills : SkillsField → String
  | .str s => s
  | .list l => String.intercalate ", " l
  | .missing => ""

/-- `processDepartments` (lines 229-242): normalise the separators
`" - "`, `" / "`, `"/"`, `"-"` to commas, split on commas, trim, drop
empty segments, and fall back to `["General"]`. -/
def processDepartments (rawCategories : String) : List String :=
  let processedString :=
    jsReplaceAll (jsReplaceAll (jsReplaceAll (jsReplaceAll rawCategories " - " ",")
      " / " ",") "/" ",") "-" ","
  let keywords :=
    ((jsSplit processedString ',').map jsTrim).filter (fun k => k.length > 0)
  if keywords.length > 0 then keywords else ["General"]

/-- What the Qdrant `GET /collections/{name}` request can observably do:
the fetch (or body parse) throws, or it answers with an HTTP status and,
when parsed, an optional `result.config.params.vectors.size` field. -/
inductive CollectionOutcome
  | thrown
  | resp (ok : Bool) (size : Option Nat)
deriving DecidableEq, Repr

structure CollectionInfo where
  vectorSize : Nat
deriving DecidableEq, Repr

/-- `checkQdrantCollection` (lines 176-201): a thrown error or a
non-success response yields 384; otherwise
`data.result?.config?.params?.vectors?.size || 384` (a missing field and a
falsy `0` both yield 384). -/
def checkQdrantCollection : CollectionOutcome → CollectionInfo
  | .thrown => ⟨384⟩
  | .resp false _ => ⟨384⟩
  | .resp true none => ⟨384⟩
  | .resp true (some n) => ⟨if n = 0 then 384 else n⟩

/-- One embedding provider call's observable outcome: anything that makes
the `try` block throw (fetch rejection, non-ok response, shape error), or
the parsed response vector. -/
inductive ProviderOutcome
  | fail (msg : String)
  | success (v : List ℚ)
deriving DecidableEq, Repr

/-- The environment `getEmbedding` reads: whether each provider key is
configured (lines 250-251) and what each provider answers when called. -/
structure EmbeddingEnv where
  openaiKey : Bool
  openaiOutcome : ProviderOutcome
  cohereKey : Bool
  cohereOutcome : ProviderOutcome
deriving DecidableEq, Repr

inductive EmbeddingError
  | cohereApiFailed (msg : String)
  | noProviderConfigured
deriving DecidableEq, Repr

/-- The Cohere-branch dimension adjustment (lines 331-336): truncate when
longer than the target, zero-pad when shorter, unchanged when equal. -/
def adjustDims (embedding : List ℚ) (targetDimensions : Nat) : List ℚ :=
  if embedding.length > targetDimensions then
    embedding.take targetDimensions
  else if embedding.length < targetDimensions then
    embedding ++ List.replicate (targetDimensions - embedding.length) 0
  else
    embedding

/-- `getEmbedding` (lines 245-356).  OpenAI is tried first when its key is
set; any failure there is caught and control falls through to Cohere
(lines 289-293).  A successful OpenAI response is returned as-is
(line 287) — no local resize.  A successful Cohere response is resized by
`adjustDims` (lines 331-339); a Cohere failure is rethrown (line 343).
With no provider left, the configuration error of lines 347-355 is
thrown. -/
def getEmbedding (env : EmbeddingEnv) (targetDimensions : Nat) :
    Except EmbeddingError (List ℚ) :=
  let openaiResult : Option (List ℚ) :=
    if env.openaiKey then
      match env.openaiOutcome with
      | .success v => some v
      | .fail _ => none
    else none
  match openaiResult with
  | some v => .ok v
  | none =>
    if env.cohereKey then
      match env.cohereOutcome with
      | .success v => .ok (adjustDims v targetDimensions)
      | .fail msg => .error (.cohereApiFailed msg)
    else .error .noProviderConfigured

/-- The payload stored with an employee point in the Qdrant `employees`
collection; every field the mapping at lines 385-398 reads is optional. -/
structure SearchItemPayload where
  name : Option String
  department : Option String
  current_role : Option String
  designation : Option String
  email : Option String
  previous_year_rating : Option ℚ
  length_of_service : Option ℚ
  awards_won : Option ℚ
  no_of_trainings : Option ℚ
  avg_training_score : Option ℚ
  KPIs_met_more_than_80 : Option ℚ
deriving DecidableEq, Repr

/-- One entry of `result.result` in the Qdrant search response. -/
structure SearchItem where
  id : Nat
  score : ℚ
  payload : SearchItemPayload
deriving DecidableEq, Repr

/-- An employee match as returned to the caller; `promotion_probability`
is absent until the enrichment stage attaches it. -/
structure Employee where
  id : Nat
  name : String
  department : String
  current_role : String
  email : String
  similarity_score : ℚ
  previous_year_rating : ℚ
  length_of_service : ℚ
  awards_won : ℚ
  no_of_trainings : ℚ
  avg_training_score : ℚ
  KPIs_met_more_than_80 : ℚ
  promotion_probability : Option ℚ
deriving DecidableEq, Repr

/-- The body sent to `POST /collections/employees/points/search`
(lines 359-364). -/
structure SearchPayload where
  vector : List ℚ
  limit : Nat
  with_payload : Bool
  score_threshold : ℚ
deriving DecidableEq, Repr

def searchPayload (jobEmbedding : List ℚ) : SearchPayload :=
  { vector := jobEmbedding
    limit := 5
    with_payload := true
    score_threshold := 1/2 }

/-- The per-item mapping of `querySimilarEmployees` (lines 385-398),
with the JavaScript `||` defaults made explicit. -/
def searchItemToEmployee (item : SearchItem) : Employee :=
  { id := item.id
    name := jsOrStr item.payload.name "Unknown"
    department := jsOrStr item.payload.department "Unknown"
    current_role :=
      jsOrStr item.payload.current_role (jsOrStr item.payload.designation "Unknown")
    email := jsOrStr item.payload.email ("employee" ++ toString item.id ++ "@company.com")
    similarity_score := item.score
    previous_year_rating := jsOrNum item.payload.previous_year_rating 0
    length_of_service := jsOrNum item.payload.length_of_service 0
    awards_won := jsOrNum item.payload.awards_won 0
    no_of_trainings := jsOrNum item.payload.no_of_trainings 0
    avg_training_score := jsOrNum item.payload.avg_training_score 0
    KPIs_met_more_than_80 := jsOrNum item.payload.KPIs_met_more_than_80 0
    promotion_probability := none }

/-- `querySimilarEmployees` (lines 358-401): on a non-ok response it
throws; on success it maps each returned item through
`searchItemToEmployee` — no sort and no local cap are applied. -/
def querySimilarEmployees (searchResp : Except String (List SearchItem)) :
    Except String (List Employee) :=
  match searchResp with
  | .error errorText => .error ("Qdrant employee search failed: " ++ errorText)
  | .ok items => .ok (items.map searchItemToEmployee)

/-- One entry of the promotion-model response array; the `probability`
field may be absent. -/
structure Prediction where
  probability : Option ℚ
deriving DecidableEq, Repr

/-- The merge of line 430: `predictions[index]?.probability || 0.5` — a
missing entry, a missing field and a falsy `0` all fall back to `0.5`. -/
def mergedProbability (predictions : List Prediction) (index : Nat) : ℚ :=
  match (predictions.get? index).bind Prediction.probability with
  | some p => if p = 0 then 1/2 else p
  | none => 1/2

/-- `addPromotionPredictions` (lines 403-432): a failing call (fetch
rejection or non-ok response) throws; otherwise each employee is merged
positionally with `predictions[index]?.probability || 0.5`. -/
def addPromotionPredictions (predictionResp : Except String (List Prediction))
    (employees : List Employee) : Except String (List Employee) :=
  match predictionResp with
  | .error _ => .error "Promotion prediction API failed"
  | .ok predictions =>
    .ok (employees.mapIdx (fun index emp =>
      { emp with promotion_probability := some (mergedProbability predictions index) }))

/-- The enrichment branch of the handler (lines 137-150): with a
configured model URL and a non-empty list, a failing prediction call is
caught and the unenriched employees are kept; otherwise each employee
gets a mock probability `Math.random() * 0.4 + 0.6` (one random draw per
employee, supplied here as `randoms`). -/
def enrichEmployees (promotionUrlConfigured : Bool)
    (predictionResp : Except String (List Prediction)) (randoms : Nat → ℚ)
    (employees : List Employee) : List Employee :=
  if promotionUrlConfigured ∧ 0 < employees.length then
    match addPromotionPredictions predictionResp employees with
    | .ok enriched => enriched
    | .error _ => employees
  else
    employees.mapIdx (fun i emp =>
      { emp with promotion_probability := some (randoms i * (2/5) + 3/5) })

/-- The job-posting row returned by the Supabase insert's
`.select().single()` (lines 43-55); `id` is the identifier the store
assigned at insert time. -/
structure Posting where
  id : Nat
deriving DecidableEq, Repr

/-- The payload object of the point upserted into the job-postings
collection (lines 87-105); fields irrelevant to the claims are kept as
the strings the source would store. -/
structure QdrantPointPayload where
  job_id : Nat
  status : String
  date_created : String
  title : String
  company : String
  job_type : String
  work_setting : String
  location : String
  experience_needed : String
  career_level : String
  education_level : String
  job_categories : List String
  department : String
  skills : List String
  job_description : String
  job_requirements : String
  embedding_text : String
deriving DecidableEq, Repr

structure QdrantPoint where
  id : Nat
  vector : List ℚ
  payload : QdrantPointPayload
deriving DecidableEq, Repr

/-- The body of `PUT /collections/job_postings_cluster/points?wait=true`
(lines 83-107). -/
structure QdrantPayload where
  points : List QdrantPoint
deriving DecidableEq, Repr

/-- The request body after `req.json()` and `JSON.parse(structuredData)`
(lines 26 and 34): the generated text and the parsed structured data.
`originalInput` only feeds the insert request body, whose stored result
is modelled by `World.insertResult`. -/
structure HandlerInput where
  naturalPosting : String
  parsedData : StructuredData
deriving DecidableEq, Repr

/-- Observable outcomes of every external call the handler makes, plus
the random draws of line 148 and the date string of line 90. -/
structure World where
  insertResult : Except String Posting
  collectionResp : CollectionOutcome
  emb : EmbeddingEnv
  qdrantUploadOk : Bool
  searchResp : Except String (List SearchItem)
  promotionUrlConfigured : Bool
  predictionResp : Except String (List Prediction)
  randoms : Nat → ℚ
  today : String

inductive HandlerError
  | insertError (e : String)
  | embeddingError (e : EmbeddingError)
  | uploadError
  | searchError (e : String)
deriving DecidableEq, Repr

/-- The success response body of lines 152-158. -/
structure SuccessResponse where
  posting : Posting
  similarEmployees : List Employee
  qdrant_upload_success : Bool
deriving DecidableEq, Repr

/-- The state changes the handler has performed: whether a job-posting
row now exists in the relational store (the insert of line 43 succeeded)
and the vector upsert PUT of line 109 (recorded with the payload it
carried, when issued). -/
structure Effects where
  inserted : Bool
  uploadPayload : Option QdrantPayload
deriving DecidableEq, Repr

/-- `parsedData.skills` processing at lines 37-39 of the handler: a string
is comma-split and trimmed, an array is kept, anything else becomes
`[]`. -/
def processSkills : SkillsField → List String
  | .str s => (jsSplit s ',').map jsTrim
  | .list l => l
  | .missing => []

/-- `departmentKeywords[0] || 'General'` (line 79): `undefined` and the
empty string are falsy. -/
def primaryDepartmentOf (departmentKeywords : List String) : String :=
  match departmentKeywords with
  | [] => "General"
  | k :: _ => if k = "" then "General" else k

/-- The `qdrantPayload` object of lines 83-107, built from the inserted
posting's id, the embedding, and the processed fields. -/
def mkQdrantPayload (posting : Posting) (embedding : List ℚ) (inp : HandlerInput)
    (departmentKeywords : List String) (primaryDepartment : String)
    (skills : List String) (embeddingText today : String) : QdrantPayload :=
  { points := [
      { id := posting.id
        vector := embedding
        payload :=
          { job_id := posting.id
            status := "active"
            date_created := today
            title := inp.parsedData.title
            company := inp.parsedData.company
            job_type := inp.parsedData.job_type
            work_setting := inp.parsedData.work_setting
            location := inp.parsedData.location
            experience_needed := inp.parsedData.experience_needed
            career_level := inp.parsedData.career_level
            education_level := inp.parsedData.education_level
            job_categories := departmentKeywords
            department := primaryDepartment
            skills := skills
            job_description := inp.naturalPosting
            job_requirements := inp.naturalPosting
            embedding_text := embeddingText } } ] }

/-- The `serve` handler's happy-path body (lines 23-158), after a
successful body parse: insert, synthesize the embedding text, read the
collection's dimensionality, acquire the embedding, upsert the point,
search for similar employees, enrich, and assemble the response.  Any
`throw` is the surrounding catch's 500 response, modelled as
`Except.error`; alongside the result the state-changing requests
actually issued are recorded. -/
def handler (w : World) (inp : HandlerInput) :
    Except HandlerError SuccessResponse × Effects :=
  match w.insertResult with
  | .error e => (.error (.insertError e), ⟨false, none⟩)
  | .ok posting =>
    let skills := processSkills inp.parsedData.skills
    let embeddingText := createEmbeddingText inp.parsedData inp.naturalPosting
    let collectionInfo := checkQdrantCollection w.collectionResp
    match getEmbedding w.emb collectionInfo.vectorSize with
    | .error e => (.error (.embeddingError e), ⟨true, none⟩)
    | .ok embedding =>
      let departmentKeywords :=
        processDepartments ((inp.parsedData.job_categories).getD "")
      let primaryDepartment := primaryDepartmentOf departmentKeywords
      let qdrantPayload :=
        mkQdrantPayload posting embedding inp departmentKeywords primaryDepartment
          skills embeddingText w.today
      if w.qdrantUploadOk then
        match querySimilarEmployees w.searchResp with
        | .error e => (.error (.searchError e), ⟨true, some qdrantPayload⟩)
        | .ok similarEmployeesData =>
          let similarEmployees :=
            enrichEmployees w.promotionUrlConfigured w.predictionResp w.randoms
              similarEmployeesData
          (.ok { posting := posting
                 similarEmployees := similarEmployees
                 qdrant_upload_success := true },
           ⟨true, some qdrantPayload⟩)
      else
        (.error .uploadError, ⟨true, some qdrantPayload⟩)

/-! ### Concrete fixtures used by counterexamples and witnesses -/

/-- A structured-data object as produced by the generation stage. -/
def sampleData : StructuredData :=
  { title := "T"
    company := "C"
    job_type := "Full-time"
    work_setting := "Remote"
    location := "L"
    experience_needed := "3 years"
    career_level := "Senior"
    education_level := "BSc"
    job_categories := some "Tech"
    skills := .str "Go,Rust" }

def sampleInput : HandlerInput :=
  { naturalPosting := "desc", parsedData := sampleData }

/-- A search-response item whose payload carries no optional fields. -/
def testItem (i : Nat) (q : ℚ) : SearchItem :=
  ⟨i, q, ⟨none, none, none, none, none, none, none, none, none, none, none⟩⟩

/-- A world in which the insert succeeds and no embedding provider
credential is configured. -/
def worldNoProvider : World :=
  { insertResult := .ok ⟨7⟩
    collectionResp := .thrown
    emb := ⟨false, .fail "", false, .fail ""⟩
    qdrantUploadOk := true
    searchResp := .ok []
    promotionUrlConfigured := false
    predictionResp := .error ""
    randoms := fun _ => 0
    today := "2026-01-01" }

/-- A world in which every stage succeeds (OpenAI answers with a vector of
the collection's dimensionality, the search returns no matches). -/
def worldHappy : World :=
  { insertResult := .ok ⟨7⟩
    collectionResp := .resp true (some 2)
    emb := ⟨true, .success [1, 2], false, .fail ""⟩
    qdrantUploadOk := true
    searchResp := .ok []
    promotionUrlConfigured := false
    predictionResp := .error ""
    randoms := fun _ => 0
    today := "2026-01-01" }

/-- The vector-upload payload `worldHappy` produces. -/
def happyPayload : QdrantPayload :=
  mkQdrantPayload ⟨7⟩ [1, 2] sampleInput (processDepartments "Tech")
    (primaryDepartmentOf (processDepartments "Tech"))
    (processSkills sampleData.skills)
    (createEmbeddingText sampleData "desc") "2026-01-01"

/-! ### Claims -/

/-- C1, counterexample: the similarity-query stage performs no local sort
and no local cap — a backing-service response whose scores ascend is
returned ascending, and a six-item response is returned with six items. -/
theorem C1_counterexample :
    querySimilarEmployees (.ok [testItem 1 (3/5), testItem 2 (9/10)]) =
      .ok [searchItemToEmployee (testItem 1 (3/5)), searchItemToEmployee (testItem 2 (9/10))] ∧
    ¬ ([searchItemToEmployee (testItem 1 (3/5)),
        searchItemToEmployee (testItem 2 (9/10))].map Employee.similarity_score).Sorted (· ≥ ·) ∧
    (querySimilarEmployees (.ok (List.replicate 6 (testItem 1 (3/5))))).map List.length =
      .ok 6 := by
  refine ⟨rfl, ?_, rfl⟩
  intro hs
  have := List.rel_of_sorted_cons hs (9/10) (by simp [searchItemToEmployee, testItem])
  norm_num [searchItemToEmployee, testItem] at this

/-- C1, amended: the similarity-query request asks the backing service for
at most 5 matches above threshold 0.5, and the result is the one-to-one,
order-preserving mapping of the service's response items — descending
order and the ≤ 5 bound are inherited from the service, not enforced
locally. -/
theorem C1_similarity_query_passthrough (v : List ℚ) (items : List SearchItem) :
    (searchPayload v).limit = 5 ∧
    (searchPayload v).score_threshold = 1/2 ∧
    querySimilarEmployees (.ok items) = .ok (items.map searchItemToEmployee) ∧
    (items.map searchItemToEmployee).map Employee.similarity_score =
      items.map SearchItem.score := by
  refine ⟨rfl, rfl, rfl, ?_⟩
  rw [List.map_map]
  rfl

/-- C2, counterexample: a successful OpenAI response is returned without
any local resize, so a provider vector longer than the target keeps its
provider length. -/
theorem C2_counterexample :
    getEmbedding ⟨true, .success [1, 2, 3], false, .fail ""⟩ 2 = .ok [1, 2, 3] ∧
    ([(1 : ℚ), 2, 3].length ≠ 2) := by
  exact ⟨rfl, by decide⟩

/-- C2, amended: dimension normalization (truncate when longer, zero-pad
when shorter, unchanged when equal, with result length exactly the
target) is applied on the Cohere path only; a successful OpenAI response
is returned unchanged, its length unchecked. -/
theorem C2_dimension_normalization (env : EmbeddingEnv) (target : Nat) (v : List ℚ)
    (m : String) :
    (env.openaiKey = true → env.openaiOutcome = .success v →
      getEmbedding env target = .ok v) ∧
    (env.openaiKey = false → env.cohereKey = true → env.cohereOutcome = .success v →
      getEmbedding env target = .ok (adjustDims v target)) ∧
    (env.openaiOutcome = .fail m → env.cohereKey = true → env.cohereOutcome = .success v →
      getEmbedding env target = .ok (adjustDims v target)) ∧
    (adjustDims v target).length = target ∧
    (v.length > target → adjustDims v target = v.take target) ∧
    (v.length < target → adjustDims v target = v ++ List.replicate (target - v.length) 0) ∧
    (v.length = target → adjustDims v target = v) := by
  refine ⟨?_, ?_, ?_, ?_, ?_, ?_, ?_⟩
  · intro hk ho
    simp [getEmbedding, hk, ho]
  · intro hk hc ho
    simp [getEmbedding, hk, hc, ho]
  · intro ho hc hco
    unfold getEmbedding
    rcases hk : env.openaiKey with _ | _ <;> simp [hk, ho, hc, hco]
  · unfold adjustDims
    split
    · next hgt => simp [Nat.le_of_lt hgt]
    · split
      · next hlt => simp; omega
      · next h1 h2 => omega
  · intro hgt
    simp [adjustDims, hgt]
  · intro hlt
    unfold adjustDims
    split
    · omega
    · simp [hlt]
  · intro heq
    unfold adjustDims
    split
    · omega
    · split
      · omega
      · rfl

/-- C2, witness for the amended theorem. -/
theorem C2_dimension_normalization_witness :
    getEmbedding ⟨true, .success [1, 2], false, .fail ""⟩ 5 = .ok [1, 2] :=
  (C2_dimension_normalization ⟨true, .success [1, 2], false, .fail ""⟩ 5 [1, 2] "").1 rfl rfl

/-- C3, counterexample: with the insert succeeding and no embedding
provider credential configured, the handler raises the configuration
error — yet the job-posting row has already been inserted (the insert of
line 43 precedes `getEmbedding` at line 74). -/
theorem C3_counterexample :
    (handler worldNoProvider sampleInput).1 =
      .error (.embeddingError .noProviderConfigured) ∧
    (handler worldNoProvider sampleInput).2.inserted = true := by
  exact ⟨rfl, rfl⟩

/-- C3, amended: when embedding acquisition raises the configuration
error, the handler aborts before any vector upload is issued, but the
job-posting row has already been inserted into the relational store. -/
theorem C3_config_error_after_insert (w : World) (inp : HandlerInput) (posting : Posting)
    (hins : w.insertResult = .ok posting)
    (hemb : getEmbedding w.emb (checkQdrantCollection w.collectionResp).vectorSize =
      .error .noProviderConfigured) :
    handler w inp =
      (.error (.embeddingError .noProviderConfigured), ⟨true, none⟩) := by
  simp only [handler, hins, hemb]

/-- C3, witness for the amended theorem. -/
theorem C3_config_error_after_insert_witness :
    handler worldNoProvider sampleInput =
      (.error (.embeddingError .noProviderConfigured), ⟨true, none⟩) :=
  C3_config_error_after_insert worldNoProvider sampleInput ⟨7⟩ rfl rfl

/-- C4, counterexample: with the prediction endpoint configured and one
employee match, a failing prediction call is caught and the employee is
returned unchanged — carrying no promotion probability at all, not a
default one. -/
theorem C4_counterexample :
    enrichEmployees true (.error "boom") (fun _ => 0)
      [searchItemToEmployee (testItem 1 (3/5))] =
      [searchItemToEmployee (testItem 1 (3/5))] ∧
    (searchItemToEmployee (testItem 1 (3/5))).promotion_probability = none := by
  exact ⟨rfl, rfl⟩

/-- C4, amended: the enrichment branch never aborts; when the endpoint is
unconfigured each employee gets a mock probability `r·0.4 + 0.6` from a
random draw, when the response is shorter than the employee list the
missing positions fall back to 0.5, but when the call fails the employees
are returned unchanged, without any promotion probability attached. -/
theorem C4_enrichment_degradation (resp : Except String (List Prediction))
    (randoms : Nat → ℚ) (emps : List Employee) (msg : String)
    (preds : List Prediction) :
    (enrichEmployees false resp randoms emps =
      emps.mapIdx (fun i emp =>
        { emp with promotion_probability := some (randoms i * (2/5) + 3/5) })) ∧
    (0 < emps.length →
      enrichEmployees true (.error msg) randoms emps = emps) ∧
    (0 < emps.length →
      enrichEmployees true (.ok preds) randoms emps =
        emps.mapIdx (fun i emp =>
          { emp with promotion_probability := some (mergedProbability preds i) })) ∧
    (∀ i, preds.length ≤ i → mergedProbability preds i = 1/2) := by
  refine ⟨?_, ?_, ?_, ?_⟩
  · simp [enrichEmployees]
  · intro hlen
    simp [enrichEmployees, addPromotionPredictions, hlen]
  · intro hlen
    simp [enrichEmployees, addPromotionPredictions, hlen]
  · intro i hi
    simp [mergedProbability, List.getElem?_eq_none hi]

/-- C4, witness for the amended theorem. -/
theorem C4_enrichment_degradation_witness :
    0 < [searchItemToEmployee (testItem 1 (3/5))].length ∧
    enrichEmployees true (.error "boom") (fun _ => 0)
      [searchItemToEmployee (testItem 1 (3/5))] =
      [searchItemToEmployee (testItem 1 (3/5))] :=
  ⟨by decide,
   (C4_enrichment_degradation (.error "boom") (fun _ => 0)
     [searchItemToEmployee (testItem 1 (3/5))] "boom" []).2.1 (by decide)⟩

/-- C5: providers are tried in the fixed order OpenAI then Cohere, each at
most once per call; when OpenAI is configured and fails and Cohere is
configured and succeeds, the returned vector is Cohere's output resized
to the target dimensionality, and no other provider result is used. -/
theorem C5_provider_fallback (env : EmbeddingEnv) (target : Nat) (v : List ℚ)
    (m : String) (hok : env.openaiKey = true) (hof : env.openaiOutcome = .fail m)
    (hck : env.cohereKey = true) (hcs : env.cohereOutcome = .success v) :
    getEmbedding env target = .ok (adjustDims v target) := by
  simp [getEmbedding, hok, hof, hck, hcs]

/-- C5, witness. -/
theorem C5_provider_fallback_witness :
    getEmbedding ⟨true, .fail "x", true, .success [1, 2, 3]⟩ 2 =
      .ok (adjustDims [1, 2, 3] 2) :=
  C5_provider_fallback ⟨true, .fail "x", true, .success [1, 2, 3]⟩ 2 [1, 2, 3] "x"
    rfl rfl rfl rfl

lemma processDepartments_ne_nil (s : String) : processDepartments s ≠ [] := by
  simp only [processDepartments]
  split
  · next h => exact List.ne_nil_of_length_pos h
  · simp

lemma processDepartments_mem_ne_empty (s k : String)
    (hk : k ∈ processDepartments s) : k ≠ "" := by
  simp only [processDepartments] at hk
  split at hk
  · have hlen := List.of_mem_filter hk
    intro h0
    subst h0
    simp at hlen
  · simp at hk
    subst hk
    decide

/-- C6: department-keyword extraction is total and deterministic — it
always returns a non-empty list whose segments are all non-empty, with
`"Tech - Software / Engineering"` splitting into its three keywords and
empty or whitespace-only input falling back to `["General"]`. -/
theorem C6_department_extraction :
    (∀ s, processDepartments s ≠ []) ∧
    (∀ s k, k ∈ processDepartments s → k ≠ "") ∧
    processDepartments "Tech - Software / Engineering" =
      ["Tech", "Software", "Engineering"] ∧
    processDepartments "" = ["General"] ∧
    processDepartments "   " = ["General"] :=
  ⟨processDepartments_ne_nil, processDepartments_mem_ne_empty,
   by decide, by decide, by decide⟩

/-- C6, witness. -/
theorem C6_department_extraction_witness :
    "Tech" ∈ processDepartments "Tech - Software / Engineering" ∧
    "Tech" ≠ "" :=
  ⟨by decide, C6_department_extraction.2.1 "Tech - Software / Engineering" "Tech" (by decide)⟩

/-- C7: on every successful approval, the identifier assigned at insert
time is the one used as the vector-upload point id (and as the payload's
`job_id`), and the same posting record is returned in the success
response. -/
theorem C7_identifier_consistency (w : World) (inp : HandlerInput)
    (r : SuccessResponse) (eff : Effects)
    (h : handler w inp = (.ok r, eff)) :
    w.insertResult = .ok r.posting ∧
    ∃ pl, eff.uploadPayload = some pl ∧
      pl.points.map QdrantPoint.id = [r.posting.id] ∧
      pl.points.map (fun pt => pt.payload.job_id) = [r.posting.id] := by
  simp only [handler] at h
  split at h
  · simp at h
  next posting hins =>
    split at h
    · simp at h
    next embedding hemb =>
      split at h
      · split at h
        · simp at h
        next emps hq =>
          injection h with h1 h2
          injection h1 with h1
          subst h1 h2
          exact ⟨hins, _, rfl, rfl, rfl⟩
      · simp at h

/-- C7, witness. -/
theorem C7_identifier_consistency_witness :
    worldHappy.insertResult =
      .ok (SuccessResponse.posting ⟨⟨7⟩, [], true⟩) ∧
    ∃ pl, (Effects.uploadPayload ⟨true, some happyPayload⟩) = some pl ∧
      pl.points.map QdrantPoint.id = [SuccessResponse.posting ⟨⟨7⟩, [], true⟩ |>.id] ∧
      pl.points.map (fun pt => pt.payload.job_id) =
        [SuccessResponse.posting ⟨⟨7⟩, [], true⟩ |>.id] :=
  C7_identifier_consistency worldHappy sampleInput ⟨⟨7⟩, [], true⟩
    ⟨true, some happyPayload⟩ rfl

/-- C8: embedding-text synthesis is pure and deterministic — equal inputs
yield equal strings, the output is the trimmed labelled template in which
the natural-language text appears once as the description and once again
as the requirements, and the skills field is rendered as-is when a string
and comma-joined when a list. -/
theorem C8_embedding_text_deterministic (sd : StructuredData) (np : String) :
    createEmbeddingText sd np = createEmbeddingText sd np ∧
    createEmbeddingText sd np =
      jsTrim (embeddingHeader sd ++ normalizedSkills sd.skills ++
        "\n\nJob Description:\n" ++ np ++ "\n\nJob Requirements:\n" ++ np ++ "\n  ") ∧
    (∀ s, normalizedSkills (.str s) = s) ∧
    (∀ l, normalizedSkills (.list l) = String.intercalate ", " l) := by
  refine ⟨rfl, ?_, fun _ => rfl, fun _ => rfl⟩
  cases sd with
  | mk title company job_type work_setting location experience_needed career_level
      education_level job_categories skills =>
    cases skills <;> rfl

/-- C9: whenever promotion enrichment succeeds, each employee's merged
probability is `predictions[i]?.probability || 0.5`, which is never 0 —
it is either the default 0.5 or a non-zero (truthy) returned
probability. -/
theorem C9_merged_probability_never_zero (preds : List Prediction)
    (emps : List Employee) :
    addPromotionPredictions (.ok preds) emps =
      .ok (emps.mapIdx (fun index emp =>
        { emp with promotion_probability := some (mergedProbability preds index) })) ∧
    ∀ i, mergedProbability preds i ≠ 0 ∧
      (mergedProbability preds i = 1/2 ∨
        ∃ p, (preds.get? i).bind Prediction.probability = some p ∧ p ≠ 0 ∧
          mergedProbability preds i = p) := by
  refine ⟨rfl, fun i => ?_⟩
  unfold mergedProbability
  cases h : (preds.get? i).bind Prediction.probability with
  | none =>
    exact ⟨by norm_num, Or.inl rfl⟩
  | some p =>
    by_cases hp : p = 0
    · subst hp
      simp only [if_pos rfl]
      exact ⟨by norm_num, Or.inl rfl⟩
    · simp only [if_neg hp]
      exact ⟨hp, Or.inr ⟨p, rfl, hp, rfl⟩⟩

/-- C10: dimension discovery is total and never aborts — every outcome of
the collection-metadata request yields a positive vector size, with 384
returned on a thrown error, a non-success response, a missing size
field, and a falsy zero size. -/
theorem C10_collection_check_total (o : CollectionOutcome) :
    0 < (checkQdrantCollection o).vectorSize ∧
    (checkQdrantCollection .thrown).vectorSize = 384 ∧
    (∀ sz, (checkQdrantCollection (.resp false sz)).vectorSize = 384) ∧
    (checkQdrantCollection (.resp true none)).vectorSize = 384 ∧
    (∀ n, (checkQdrantCollection (.resp true (some n))).vectorSize =
      if n = 0 then 384 else n) := by
  refine ⟨?_, rfl, fun _ => rfl, rfl, fun _ => rfl⟩
  rcases o with _ | ⟨ok, sz⟩
  · decide
  · rcases ok <;> rcases sz with _ | n
    · decide
    · norm_num [checkQdrantCollection]
    · decide
    · simp only [checkQdrantCollection]
      split <;> omega

end ApprovePosting
